import Mathlib

/-!
A shallow embedding of the raw-terminal line editor in src/main.c.

A row is modelled by its observable content: the first `size` byte values
of the allocation behind `row.data`, as a `List Nat`.  The global
`buffer` struct of main.c becomes the `Buffer` structure below.  Terminal
output is modelled as the list of byte values written to stdout; an
output field of `none` marks a write whose byte values depend on heap or
struct memory layout rather than on row contents (two Backspace writes,
see `apply_event`).  Where the C code would perform a size_t underflow or
an out-of-bounds access that makes the resulting buffer contents
layout dependent (undefined behavior), the step functions return `none`;
every such guard is noted in a comment at the definition.
-/

namespace Editor

/-- The decoded key events dispatched by handle_key_press
(src/main.c:168-256). -/
inductive KeyEvent where
  | Char (c : Nat)
  | Enter
  | Backspace
  | ArrowUp
  | ArrowDown
  | ArrowLeft
  | ArrowRight
  | Quit
  | Ignored

deriving instance DecidableEq for KeyEvent

/-- The global `buffer` struct (src/main.c:20-26): the ordered rows
(`n_rows` is `rows.length`) and the cursor `(cx, cy)`. -/
structure Buffer where
  rows : List (List Nat)
  cx : Nat
  cy : Nat

deriving instance DecidableEq for Buffer

/-- init_buffer (src/main.c:68-75): one empty row, cursor (0,0). -/
def init_buffer : Buffer :=
  { rows := [[]], cx := 0, cy := 0 }

/-- The data-model invariants of the spec: at least one row, `cy` a row
index, `cx` at most the current row length. -/
def ValidBuffer (b : Buffer) : Prop :=
  1 ≤ b.rows.length ∧ b.cy < b.rows.length ∧ b.cx ≤ (b.rows.getD b.cy []).length

/-- insert_char (src/main.c:78-83): size++, realloc, memmove shifts the
bytes from `index` on right by one (count `size - index - 1` with the new
size, so `oldsize - index`), then `data[index] = c`.  Observable content
for `index ≤ row.length`; past that the size_t memmove count underflows
(undefined behavior) and the only call site guards it (`apply_event`). -/
def insert_char (row : List Nat) (index : Nat) (c : Nat) : List Nat :=
  row.take index ++ c :: row.drop index

/-- remove_char (src/main.c:85-88): size--, then
`memmove(data + index, data + index + 1, 1)` copies a SINGLE byte (not
`size - index`), so only `data[index]` is overwritten with `data[index+1]`
and the content is truncated to the new size.  When `index + 1` is not
below the old length the copied byte lies past the content and never
reaches an observable position, so the content is just truncated.
Faithful for rows of length at least 1 (with length 0 the size_t
decrement underflows; the call site guards that). -/
def remove_char (row : List Nat) (index : Nat) : List Nat :=
  (if index + 1 < row.length then row.set index (row.getD (index + 1) 0) else row).take
    (row.length - 1)

/-- insert_row (src/main.c:91-96): n_rows++, realloc, memmove shifts
`rows[index..]` one slot right (count `(n_rows - index - 1) * sizeof(struct row)`
with the new n_rows), init_row puts an empty row at `index`.  Observable
for `index ≤ rows.length`; past that the count underflows (undefined
behavior) and the only call site guards it. -/
def insert_row (rows : List (List Nat)) (index : Nat) : List (List Nat) :=
  rows.take index ++ [] :: rows.drop index

/-- concat_row (src/main.c:98-102): dest grows by src.size, realloc, and
the src bytes are copied to the end of dest. -/
def concat_row (dest src : List Nat) : List Nat :=
  dest ++ src

/-- remove_row (src/main.c:104-107): n_rows--, then
`memmove(rows + index, rows + index + 1, n_rows - index)` — the count is
`n_rows - index` BYTES, missing the `* sizeof(struct row)` factor (compare
insert_row, which has it).  Removing the LAST row (count 0 with the new
n_rows) is layout independent: the observable row list is the prefix
before `index`.  Removing any earlier row overwrites only the first few
bytes of `rows[index]` with bytes of the struct `rows[index + 1]` and
shifts nothing, so the result depends on struct layout: `none`. -/
def remove_row (rows : List (List Nat)) (index : Nat) : Option (List (List Nat)) :=
  if index + 1 = rows.length then some (rows.take index) else none

/-- Decimal digit bytes of `n`, as produced by `snprintf(.., "%d", n)`
inside set_row and set_column (src/main.c:137-153). -/
def decimal (n : Nat) : List Nat :=
  (Nat.toDigits 10 n).map Char.toNat

/-- set_row (src/main.c:137-144): ESC [ digits H. -/
def set_row_out (row : Nat) : List Nat :=
  [27, 91] ++ decimal row ++ [72]

/-- set_column (src/main.c:146-153): ESC [ digits G. -/
def set_column_out (column : Nat) : List Nat :=
  [27, 91] ++ decimal column ++ [71]

/-- clear_screen (src/main.c:130-133): ESC [ 2 J then ESC [ 1 ; 1 H. -/
def clear_screen_out : List Nat :=
  [27, 91, 50, 74] ++ [27, 91, 49, 59, 49, 72]

/-- write_buffer (src/main.c:123-128): every row followed by CR LF. -/
def write_buffer_out (rows : List (List Nat)) : List Nat :=
  (rows.map (fun r => r ++ [13, 10])).flatten

/-- read_key_press (src/main.c:157-166): blocks (retrying on timeout)
until one byte arrives; on an exhausted stream the loop never ends, which
the model marks `none`. -/
def read_key_press : List Nat → Option (Nat × List Nat)
  | [] => none
  | c :: rest => some (c, rest)

/-- The arrow dispatch on the third byte of an escape sequence
(src/main.c:224-248), in source order D, C, A, B; any other byte falls
through every branch and is ignored. -/
def arrow_event (c3 : Nat) : KeyEvent :=
  if c3 = 68 then KeyEvent.ArrowLeft
  else if c3 = 67 then KeyEvent.ArrowRight
  else if c3 = 65 then KeyEvent.ArrowUp
  else if c3 = 66 then KeyEvent.ArrowDown
  else KeyEvent.Ignored

/-- The nested reads of the escape branch (src/main.c:221-249): a second
byte is read; only `[` (91) leads to a third read, whose value selects
the arrow; any other second byte ends the dispatch with nothing done. -/
def decode_esc (rest : List Nat) : Option (KeyEvent × List Nat) :=
  match rest with
  | [] => none
  | c2 :: rest2 =>
    if c2 = 91 then
      match rest2 with
      | [] => none
      | c3 :: rest3 => some (arrow_event c3, rest3)
    else some (KeyEvent.Ignored, rest2)

/-- The read-and-dispatch structure of handle_key_press
(src/main.c:168-256) as a decoder from the byte stream to one event plus
the unconsumed bytes, in source branch order: 0x11 (CTRL_PLUS of q),
KEY_ENTER 0x0D, KEY_BACKSPACE 0x7F, ESC 0x1B with its nested reads,
isprint (0x20-0x7E in the C locale; bytes above 0x7E, stored in a signed
char, index the negative part of the glibc ctype table and are not
printable), else nothing. -/
def decode_key : List Nat → Option (KeyEvent × List Nat)
  | [] => none
  | c :: rest =>
    if c = 17 then some (KeyEvent.Quit, rest)
    else if c = 13 then some (KeyEvent.Enter, rest)
    else if c = 127 then some (KeyEvent.Backspace, rest)
    else if c = 27 then decode_esc rest
    else if 32 ≤ c ∧ c ≤ 126 then some (KeyEvent.Char c, rest)
    else some (KeyEvent.Ignored, rest)

/-- The state part of the Enter branch (src/main.c:175-179): insert_row
at cy+1 (the inserted row is empty and the rows from cy+1 shift right),
then `rows[cy+1].size = rows[cy].size - cx` and a memcpy of the tail
`rows[cy].data + cx` into the new row, then `rows[cy].size = cx`; cursor
becomes (0, cy+1) (lines 188-189).  The new row keeps the `malloc(0)`
allocation from init_row and the branch never reallocs it (contrast
insert_char and concat_row, which realloc before writing), so the memcpy
of a NONEMPTY tail — cx below the row length — is an out-of-bounds heap
write whose effect on the surrounding heap objects, the other rows
included, is layout dependent: `none`.  Also `none` past the faithful
domain: for `cy ≥ rows.length` the insert_row memmove count underflows,
and for `cx` above the row length the size_t tail length underflows,
both undefined behavior in the C.  Defined content therefore only for a
tail of length 0 (the cursor at the end of row cy), where the memcpy
copies zero bytes. -/
def enter_state (buf : Buffer) : Option Buffer :=
  if buf.cy < buf.rows.length ∧ buf.cx = (buf.rows.getD buf.cy []).length then
    some { rows := ((insert_row buf.rows (buf.cy + 1)).set (buf.cy + 1)
                      ((buf.rows.getD buf.cy []).drop buf.cx)).set buf.cy
                      ((buf.rows.getD buf.cy []).take buf.cx),
           cx := 0, cy := buf.cy + 1 }
  else none

/-- The output of the Enter branch (src/main.c:181-192), computed from
the post-surgery state: ESC [ 0 J, then for every row from the new cy on,
CR LF and the row bytes, then set_row (new cy + 1) and set_column 1. -/
def enter_out (bufAfter : Buffer) : List Nat :=
  [27, 91, 48, 74] ++ ((bufAfter.rows.drop bufAfter.cy).map (fun r => [13, 10] ++ r)).flatten
    ++ set_row_out (bufAfter.cy + 1) ++ set_column_out 1

/-- The outcome of one dispatched event: either the loop continues with a
new buffer and some terminal output, or the process exits with a status
after a final write.  An output of `none` marks bytes that depend on
memory layout (see `apply_event`). -/
inductive StepResult where
  | cont (buf : Buffer) (out : Option (List Nat))
  | exit (status : Nat) (out : List Nat)

deriving instance DecidableEq for StepResult

/-- The action part of each handle_key_press branch (src/main.c:168-256).
Branch notes, with the line numbers of the C:

Quit (171-174): clear_screen, write_buffer, `exit(EXIT_FAILURE)` — the
status is 1.

Enter (175-192): see `enter_state` and `enter_out`.

Backspace (193-220): at (0,0) nothing happens; at (0, cy>0) concat_row
merges row cy into row cy-1, remove_row cy (see its layout caveat), cy--,
and `cx = rows[cy].size`, the MERGED length (line 199).  The rewrite
output (201-208) includes `write_string(rows[cy].data)`, which reads the
data as a NUL-terminated C string and so runs past the content into heap
memory: output `none`.  Guard `cy < rows.length` (else the row reads are
out of bounds).  At cx>0 (213-220): `remove_char(rows[cy], cx)` — index
cx, NOT cx-1 — then cx--.  The rewrite (217-219) writes `size - cx` bytes
starting at `(struct row*)(rows + cy) + cx`, pointer arithmetic on the
struct array instead of `rows[cy].data + cx`, so the bytes are struct
memory: output `none` after the BS byte and ESC [ 0 K.  Guards:
`cy < rows.length` and a nonempty row (else the size_t size decrement in
remove_char underflows).

Arrows (221-249): left/right/up move with clamped no-ops and emit the
single-cell escape only when they move; up does NOT clamp cx (234-238).
Down (239-248) steps when `cy < n_rows - 1` (size_t; faithful for
n_rows ≥ 1, which init_buffer establishes and no branch destroys since
remove_row is only reached with cy ≥ 1) and then, when `cx ≥ size` of the
new row, sets `cx = size - 1` — a size_t subtraction, so an empty row
gives 2^64 - 1.  Right reads `rows[cy].size`: guard `cy < rows.length`.

Char (250-255): write the byte, insert_char at cx, cx++.  Guards as in
`insert_char` and for the `rows[cy]` access.

Ignored: every branch fell through; nothing is touched, nothing written. -/
def apply_event : KeyEvent → Buffer → Option StepResult
  | KeyEvent.Quit, buf =>
      some (StepResult.exit 1 (clear_screen_out ++ write_buffer_out buf.rows))
  | KeyEvent.Enter, buf =>
      match enter_state buf with
      | some bufAfter => some (StepResult.cont bufAfter (some (enter_out bufAfter)))
      | none => none
  | KeyEvent.Backspace, buf =>
      if buf.cx = 0 ∧ buf.cy = 0 then some (StepResult.cont buf (some []))
      else if buf.cx = 0 then
        if buf.cy < buf.rows.length then
          match remove_row (buf.rows.set (buf.cy - 1)
                  (concat_row (buf.rows.getD (buf.cy - 1) []) (buf.rows.getD buf.cy [])))
                buf.cy with
          | some rows2 =>
              some (StepResult.cont
                { rows := rows2,
                  cx := (concat_row (buf.rows.getD (buf.cy - 1) [])
                          (buf.rows.getD buf.cy [])).length,
                  cy := buf.cy - 1 } none)
          | none => none
        else none
      else
        if buf.cy < buf.rows.length ∧ 1 ≤ (buf.rows.getD buf.cy []).length then
          some (StepResult.cont
            { rows := buf.rows.set buf.cy (remove_char (buf.rows.getD buf.cy []) buf.cx),
              cx := buf.cx - 1, cy := buf.cy } none)
        else none
  | KeyEvent.ArrowLeft, buf =>
      if 0 < buf.cx then
        some (StepResult.cont { buf with cx := buf.cx - 1 } (some [27, 91, 68]))
      else some (StepResult.cont buf (some []))
  | KeyEvent.ArrowRight, buf =>
      if buf.cy < buf.rows.length then
        if buf.cx < (buf.rows.getD buf.cy []).length then
          some (StepResult.cont { buf with cx := buf.cx + 1 } (some [27, 91, 67]))
        else some (StepResult.cont buf (some []))
      else none
  | KeyEvent.ArrowUp, buf =>
      if 0 < buf.cy then
        some (StepResult.cont { buf with cy := buf.cy - 1 } (some [27, 91, 65]))
      else some (StepResult.cont buf (some []))
  | KeyEvent.ArrowDown, buf =>
      if buf.cy < buf.rows.length - 1 then
        some (StepResult.cont
          { buf with
            cy := buf.cy + 1
            cx := if (buf.rows.getD (buf.cy + 1) []).length ≤ buf.cx then
                    ((buf.rows.getD (buf.cy + 1) []).length + (2 ^ 64 - 1)) % 2 ^ 64
                  else buf.cx }
          (some [27, 91, 66]))
      else some (StepResult.cont buf (some []))
  | KeyEvent.Char c, buf =>
      if buf.cy < buf.rows.length ∧ buf.cx ≤ (buf.rows.getD buf.cy []).length then
        some (StepResult.cont
          { rows := buf.rows.set buf.cy (insert_char (buf.rows.getD buf.cy []) buf.cx c),
            cx := buf.cx + 1, cy := buf.cy } (some [c]))
      else none
  | KeyEvent.Ignored, buf => some (StepResult.cont buf (some []))

/-- One call of handle_key_press (src/main.c:168-256): read and decode
one event from the stream, act on the buffer, return the outcome and the
unconsumed bytes. -/
def handle_key_press (input : List Nat) (buf : Buffer) : Option (StepResult × List Nat) :=
  match decode_key input with
  | none => none
  | some (e, rest) =>
      match apply_event e buf with
      | none => none
      | some r => some (r, rest)

/-- The main loop (src/main.c:266-268) run for a given number of
keypresses: repeatedly handle_key_press, threading the buffer and the
remaining input; `none` on exit, undefined behavior, or an exhausted
stream. -/
def apply_bytes : Nat → List Nat → Buffer → Option (Buffer × List Nat)
  | 0, input, buf => some (buf, input)
  | n + 1, input, buf =>
      match handle_key_press input buf with
      | some (StepResult.cont bufAfter _, rest) => apply_bytes n rest bufAfter
      | _ => none

end Editor

namespace Editor

/-- C1: the claim says Backspace at cx > 0 removes the byte at index
cx-1 of row cy.  At rows = [ [97, 98] ] with cursor (1, 0) the code
(remove_char called with index cx and a one-byte memmove) leaves [97],
while removing the byte at index 0 would leave [98]: only the length
decrease and the new cursor (0, 0) match the claim. -/
theorem C1_backspace_nomerge_eval :
    handle_key_press [127] { rows := [[97, 98]], cx := 1, cy := 0 }
      = some (StepResult.cont { rows := [[97]], cx := 0, cy := 0 } none, [])
    ∧ ([97] : List Nat) ≠ [98] := by
  decide

/-- C2: the claim says Backspace at (0, cy > 0) sets the cursor column to
prevLen, the length of row cy-1 before the merge.  At
rows = [ [97, 98], [99, 100] ] with cursor (0, 1) the code merges
correctly but reads `rows[cy].size` only after the concat, so cx becomes
the merged length 4 instead of prevLen 2. -/
theorem C2_backspace_merge_eval :
    handle_key_press [127] { rows := [[97, 98], [99, 100]], cx := 0, cy := 1 }
      = some (StepResult.cont { rows := [[97, 98, 99, 100]], cx := 4, cy := 0 } none, [])
    ∧ (4 : Nat) ≠ 2 := by
  decide

/-- C3: the claim says every sequence of operations preserves the
data-model invariants.  From the valid state rows = [ [], [97, 98] ],
cursor (2, 1), one ArrowUp leaves cx = 2 on a row of length 0, because
the up branch never clamps cx: the invariant cx ≤ row length is broken. -/
theorem C3_arrow_invariant_violation :
    ValidBuffer { rows := [[], [97, 98]], cx := 2, cy := 1 }
    ∧ handle_key_press [27, 91, 65] { rows := [[], [97, 98]], cx := 2, cy := 1 }
        = some (StepResult.cont { rows := [[], [97, 98]], cx := 2, cy := 0 }
            (some [27, 91, 65]), [])
    ∧ ¬ ValidBuffer { rows := [[], [97, 98]], cx := 2, cy := 0 } := by
  refine ⟨⟨by decide, by decide, by decide⟩, by decide, fun h => absurd h.2.2 (by decide)⟩

/-- C4: the claim says both vertical moves end with
cx = min(old cx, new row length).  ArrowUp from rows = [ [], [97, 98] ],
cursor (2, 1) keeps cx = 2 where min(2, 0) = 0 (the up branch has no
clamp at all); ArrowDown from rows = [ [97, 98], [] ], cursor (2, 0)
clamps to `size - 1` as a size_t, giving 2^64 - 1 on the empty row where
the claim requires 0. -/
theorem C4_arrow_clamp_eval :
    handle_key_press [27, 91, 65] { rows := [[], [97, 98]], cx := 2, cy := 1 }
      = some (StepResult.cont { rows := [[], [97, 98]], cx := 2, cy := 0 }
          (some [27, 91, 65]), [])
    ∧ (2 : Nat) ≠ 0
    ∧ handle_key_press [27, 91, 66] { rows := [[97, 98], []], cx := 2, cy := 0 }
        = some (StepResult.cont { rows := [[97, 98], []], cx := 18446744073709551615, cy := 1 }
            (some [27, 91, 66]), [])
    ∧ (18446744073709551615 : Nat) ≠ 0 := by
  refine ⟨by decide, by decide, by decide, by decide⟩

/-- C5: the end-to-end scenario.  From init_buffer, the byte sequence
h, i, 0x0D, b, y, e, 0x7F, 0x7F, 0x7F, 0x7F passes through exactly the
five claimed checkpoints: after typing hi, after Enter, after typing bye,
after three Backspaces, and after the merging fourth Backspace. -/
theorem C5_end_to_end :
    apply_bytes 2 [104, 105, 13, 98, 121, 101, 127, 127, 127, 127] init_buffer
      = some ({ rows := [[104, 105]], cx := 2, cy := 0 }, [13, 98, 121, 101, 127, 127, 127, 127])
    ∧ apply_bytes 3 [104, 105, 13, 98, 121, 101, 127, 127, 127, 127] init_buffer
        = some ({ rows := [[104, 105], []], cx := 0, cy := 1 }, [98, 121, 101, 127, 127, 127, 127])
    ∧ apply_bytes 6 [104, 105, 13, 98, 121, 101, 127, 127, 127, 127] init_buffer
        = some ({ rows := [[104, 105], [98, 121, 101]], cx := 3, cy := 1 }, [127, 127, 127, 127])
    ∧ apply_bytes 9 [104, 105, 13, 98, 121, 101, 127, 127, 127, 127] init_buffer
        = some ({ rows := [[104, 105], []], cx := 0, cy := 1 }, [127])
    ∧ apply_bytes 10 [104, 105, 13, 98, 121, 101, 127, 127, 127, 127] init_buffer
        = some ({ rows := [[104, 105]], cx := 2, cy := 0 }, []) := by
  decide

/-- C6: the claim says Quit emits exactly ESC [ 2 J then ESC [ 1 ; 1 H
and exits with status 0.  On byte 0x11 in the initial state the code
also writes the whole buffer (here the one empty row followed by CR LF)
after the two sequences, and exits with EXIT_FAILURE, status 1. -/
theorem C6_quit_eval :
    handle_key_press [17] init_buffer
      = some (StepResult.exit 1 [27, 91, 50, 74, 27, 91, 49, 59, 49, 72, 13, 10], [])
    ∧ (1 : Nat) ≠ 0
    ∧ ([27, 91, 50, 74, 27, 91, 49, 59, 49, 72, 13, 10] : List Nat)
        ≠ [27, 91, 50, 74, 27, 91, 49, 59, 49, 72] := by
  decide

/-- C7: the claim asserts a defined split result for every buffer state,
but the Enter branch memcpys the tail `rows[cy].size - cx` bytes into
the new row, whose data is still the `malloc(0)` allocation from
init_row, with no realloc anywhere in the branch (contrast insert_char
and concat_row, which realloc before writing): for a nonempty tail this
is an out-of-bounds heap write and the resulting row contents are layout
dependent, which the model marks `none` — here at rows = [ [97, 98] ],
cursor (0, 0), where the claim requires rows [ [], [97, 98] ].  With an
empty tail (cursor at end of row, a memcpy of zero bytes) the branch is
defined and does behave as the claim says: an empty row appears at
cy + 1, the other rows stay, and the cursor becomes (0, cy + 1). -/
theorem C7_split_line_overflow_eval :
    enter_state { rows := [[97, 98]], cx := 0, cy := 0 } = none
    ∧ handle_key_press [13] { rows := [[97, 98]], cx := 2, cy := 0 }
        = some (StepResult.cont { rows := [[97, 98], []], cx := 0, cy := 1 }
            (some [27, 91, 48, 74, 13, 10, 27, 91, 50, 72, 27, 91, 49, 71]), []) := by
  decide

/-- C8: the key decoder realizes exactly the three-state machine of the
claim.  In the ground state: 0x11 gives Quit, 0x0D Enter, 0x7F Backspace,
a printable byte 0x20-0x7E gives Char of that byte, and any other byte
that is not 0x1B is ignored, each consuming one byte.  After 0x1B the
next byte is read: a byte other than 0x5B ends as Ignored with two bytes
consumed; after 0x1B 0x5B a third byte is read and 0x41-0x44 give the
four arrows, anything else Ignored, with three bytes consumed. -/
theorem C8_decoder :
    (∀ rest : List Nat, decode_key (17 :: rest) = some (KeyEvent.Quit, rest))
    ∧ (∀ rest : List Nat, decode_key (13 :: rest) = some (KeyEvent.Enter, rest))
    ∧ (∀ rest : List Nat, decode_key (127 :: rest) = some (KeyEvent.Backspace, rest))
    ∧ (∀ (b : Nat) (rest : List Nat), 32 ≤ b → b ≤ 126 →
        decode_key (b :: rest) = some (KeyEvent.Char b, rest))
    ∧ (∀ (b : Nat) (rest : List Nat), b ≠ 17 → b ≠ 13 → b ≠ 127 → b ≠ 27 →
        ¬(32 ≤ b ∧ b ≤ 126) → decode_key (b :: rest) = some (KeyEvent.Ignored, rest))
    ∧ (∀ rest : List Nat, decode_key (27 :: 91 :: 65 :: rest) = some (KeyEvent.ArrowUp, rest))
    ∧ (∀ rest : List Nat, decode_key (27 :: 91 :: 66 :: rest) = some (KeyEvent.ArrowDown, rest))
    ∧ (∀ rest : List Nat, decode_key (27 :: 91 :: 67 :: rest) = some (KeyEvent.ArrowRight, rest))
    ∧ (∀ rest : List Nat, decode_key (27 :: 91 :: 68 :: rest) = some (KeyEvent.ArrowLeft, rest))
    ∧ (∀ (b3 : Nat) (rest : List Nat), b3 ≠ 65 → b3 ≠ 66 → b3 ≠ 67 → b3 ≠ 68 →
        decode_key (27 :: 91 :: b3 :: rest) = some (KeyEvent.Ignored, rest))
    ∧ (∀ (b2 : Nat) (rest : List Nat), b2 ≠ 91 →
        decode_key (27 :: b2 :: rest) = some (KeyEvent.Ignored, rest)) := by
  refine ⟨fun rest => by simp [decode_key],
    fun rest => by simp [decode_key],
    fun rest => by simp [decode_key],
    fun b rest h1 h2 => ?_,
    fun b rest h1 h2 h3 h4 h5 => by simp [decode_key, h1, h2, h3, h4, h5],
    fun rest => by simp [decode_key, decode_esc, arrow_event],
    fun rest => by simp [decode_key, decode_esc, arrow_event],
    fun rest => by simp [decode_key, decode_esc, arrow_event],
    fun rest => by simp [decode_key, decode_esc, arrow_event],
    fun b3 rest h1 h2 h3 h4 => by simp [decode_key, decode_esc, arrow_event, h1, h2, h3, h4],
    fun b2 rest h1 => by simp [decode_key, decode_esc, h1]⟩
  have n1 : b ≠ 17 := by omega
  have n2 : b ≠ 13 := by omega
  have n3 : b ≠ 127 := by omega
  have n4 : b ≠ 27 := by omega
  simp [decode_key, n1, n2, n3, n4, h1, h2]

/-- Witness for C8 at the bytes 0x68 (h), 0x1B 0x5B 0x42 (ArrowDown),
0x09 (tab, ignored) and 0x1B 0x1B (malformed escape, ignored). -/
theorem C8_decoder_witness :
    decode_key [104] = some (KeyEvent.Char 104, [])
    ∧ decode_key [27, 91, 66] = some (KeyEvent.ArrowDown, [])
    ∧ decode_key [9] = some (KeyEvent.Ignored, [])
    ∧ decode_key [27, 27] = some (KeyEvent.Ignored, []) := by
  refine ⟨C8_decoder.2.2.2.1 104 [] (by decide) (by decide),
    C8_decoder.2.2.2.2.2.2.1 [],
    C8_decoder.2.2.2.2.1 9 [] (by decide) (by decide) (by decide) (by decide) (by decide),
    C8_decoder.2.2.2.2.2.2.2.2.2.2 27 [] (by decide)⟩

/-- C9: the claim says the Backspace rewrite without merge emits the
cursor-back move, ESC [ 0 K, and then the bytes of row cy from the new
column on.  The code instead writes `size - cx` bytes starting at
`(struct row*)(rows + cy) + cx` — pointer arithmetic on the struct row
array, not on `rows[cy].data` — so the emitted bytes are struct memory,
which the model marks with the output `none`: at rows = [ [97, 98, 99] ],
cursor (2, 0), no byte list over row contents describes the write. -/
theorem C9_backspace_render_eval :
    handle_key_press [127] { rows := [[97, 98, 99]], cx := 2, cy := 0 }
      = some (StepResult.cont { rows := [[97, 98]], cx := 1, cy := 0 } none, []) := by
  decide

/-- C10: a byte resolved as Ignored — a ground byte that is none of
0x11, 0x0D, 0x7F, 0x1B and not printable, an ESC followed by a byte other
than 0x5B, or ESC 0x5B followed by a byte outside 0x41-0x44 — leaves the
rows and the cursor unchanged and writes nothing. -/
theorem C10_ignored_frame :
    (∀ (buf : Buffer) (b : Nat) (rest : List Nat),
        b ≠ 17 → b ≠ 13 → b ≠ 127 → b ≠ 27 → ¬(32 ≤ b ∧ b ≤ 126) →
        handle_key_press (b :: rest) buf = some (StepResult.cont buf (some []), rest))
    ∧ (∀ (buf : Buffer) (b2 : Nat) (rest : List Nat), b2 ≠ 91 →
        handle_key_press (27 :: b2 :: rest) buf = some (StepResult.cont buf (some []), rest))
    ∧ (∀ (buf : Buffer) (b3 : Nat) (rest : List Nat),
        b3 ≠ 65 → b3 ≠ 66 → b3 ≠ 67 → b3 ≠ 68 →
        handle_key_press (27 :: 91 :: b3 :: rest) buf
          = some (StepResult.cont buf (some []), rest)) := by
  refine ⟨fun buf b rest h1 h2 h3 h4 h5 => ?_, fun buf b2 rest h1 => ?_,
    fun buf b3 rest h1 h2 h3 h4 => ?_⟩
  · simp [handle_key_press, decode_key, apply_event, h1, h2, h3, h4, h5]
  · simp [handle_key_press, decode_key, decode_esc, apply_event, h1]
  · simp [handle_key_press, decode_key, decode_esc, arrow_event, apply_event, h1, h2, h3, h4]

/-- Witness for C10 at the bytes 0x09, 0x1B 0x1B and 0x1B 0x5B 0x5A on
the initial buffer. -/
theorem C10_ignored_frame_witness :
    handle_key_press [9] init_buffer = some (StepResult.cont init_buffer (some []), [])
    ∧ handle_key_press [27, 27] init_buffer = some (StepResult.cont init_buffer (some []), [])
    ∧ handle_key_press [27, 91, 90] init_buffer
        = some (StepResult.cont init_buffer (some []), []) := by
  refine ⟨C10_ignored_frame.1 init_buffer 9 [] (by decide) (by decide) (by decide) (by decide)
      (by decide),
    C10_ignored_frame.2.1 init_buffer 27 [] (by decide),
    C10_ignored_frame.2.2 init_buffer 90 [] (by decide) (by decide) (by decide) (by decide)⟩

end Editor
